import Mathlib

/-!
Verification development for the MessageCraft reflection pipeline
(`src/backend/langgraph_agents_with_reflection.py`).

The embedding models Python JSON-like values as `JVal`, Python dicts as
association lists, the pipeline state (`MessagingState`) as `PState`, and
each agent of the reflection segment as a state-transformer.  Python
exceptions are modelled with `Option`/`Except`: a `none`/`.error` result
marks the point where the corresponding Python code raises.  Python floats
are idealised as rationals (`ℚ`); Python `str(float_value)` results are
modelled by the dedicated constructor `JVal.jnumstr q`, a nonempty decimal
string whose `float()` re-parse yields `q` again.
-/

namespace MessageCraft

/-- A Python/JSON value.  `jnumstr q` models the result of Python
`str(x)` for a float `x`: a nonempty string that `float()` parses back to
the same value (the source stores aggregate scores this way). -/
inductive JVal where
  | jnull
  | jbool (b : Bool)
  | jnum (q : ℚ)
  | jnumstr (q : ℚ)
  | jstr (s : String)
  | jarr (elems : List JVal)
  | jobj (fields : List (String × JVal))

/-- Python truthiness (`bool(x)`) for the modelled values. -/
def pyTruthy : JVal → Bool
  | .jnull => false
  | .jbool b => b
  | .jnum q => q != 0
  | .jnumstr _ => true
  | .jstr s => s != ""
  | .jarr l => !l.isEmpty
  | .jobj l => !l.isEmpty

/-- `d.get(k)` on a Python dict, later entries winning (as in Python,
where a later duplicate key overwrites an earlier one). -/
def dictGet? : List (String × JVal) → String → Option JVal
  | [], _ => none
  | (k₁, v) :: rest, k =>
    match dictGet? rest k with
    | some w => some w
    | none => if k₁ = k then some v else none

/-- `d.get(k, default)` on a Python dict. -/
def dGetD (l : List (String × JVal)) (k : String) (dflt : JVal) : JVal :=
  (dictGet? l k).getD dflt

/-- `d[k] = v` on a Python dict: drop any existing binding and bind `k`
last (observationally equivalent for `dictGet?`). -/
def dSet (l : List (String × JVal)) (k : String) (v : JVal) :
    List (String × JVal) :=
  l.filter (fun p => p.1 ≠ k) ++ [(k, v)]

/-- `isinstance(x, dict)`: expose the fields of an object value. -/
def asObj? : JVal → Option (List (String × JVal))
  | .jobj l => some l
  | _ => none

theorem dictGet?_append_last (xs : List (String × JVal)) (k : String)
    (v : JVal) : dictGet? (xs ++ [(k, v)]) k = some v := by
  induction xs with
  | nil => simp [dictGet?]
  | cons hd tl ih => cases hd with
    | mk k₁ v₁ => simp [dictGet?, ih]

theorem dictGet?_append_ne (xs : List (String × JVal)) (k k₁ : String)
    (v : JVal) (h : k₁ ≠ k) :
    dictGet? (xs ++ [(k₁, v)]) k = dictGet? xs k := by
  induction xs with
  | nil => simp [dictGet?, h]
  | cons hd tl ih => cases hd with
    | mk k₂ v₂ => simp [dictGet?, ih]

theorem dictGet?_filter_ne (l : List (String × JVal)) (k k₁ : String)
    (h : k ≠ k₁) :
    dictGet? (l.filter (fun p => p.1 ≠ k₁)) k = dictGet? l k := by
  induction l with
  | nil => simp
  | cons hd tl ih =>
    cases hd with
    | mk k₂ v₂ =>
      by_cases hk : k₂ = k₁
      · have hne : ¬ k₂ = k := fun hh => h (hk ▸ hh ▸ rfl)
        rw [List.filter_cons_of_neg (by simp [hk])]
        rw [ih]
        cases htl : dictGet? tl k with
        | some w => simp [dictGet?, htl]
        | none => simp [dictGet?, htl, hne]
      · rw [List.filter_cons_of_pos (by simp [hk])]
        simp only [dictGet?]
        rw [ih]

theorem dictGet?_dSet_self (l : List (String × JVal)) (k : String)
    (v : JVal) : dictGet? (dSet l k v) k = some v := by
  simp [dSet, dictGet?_append_last]

theorem dictGet?_dSet_ne (l : List (String × JVal)) (k k₁ : String)
    (v : JVal) (h : k ≠ k₁) :
    dictGet? (dSet l k₁ v) k = dictGet? l k := by
  unfold dSet
  rw [dictGet?_append_ne _ _ _ _ (fun hh => h hh.symm)]
  exact dictGet?_filter_ne _ _ _ h

/-- ASCII whitespace as stripped by Python `str.strip()` and matched by
the regex class `\s` (the Unicode extras are not modelled; no input in
this development contains them). -/
def isPySpace (c : Char) : Bool :=
  c = ' ' || c = '\t' || c = '\n' || c = '\r' || c = '\x0b' || c = '\x0c'

/-- `s.strip()` on a list of characters. -/
def pyStripList (cs : List Char) : List Char :=
  ((cs.dropWhile isPySpace).reverse.dropWhile isPySpace).reverse

/-- `s.strip()` on a string. -/
def pyStrip (s : String) : String :=
  String.mk (pyStripList s.toList)

/-- `s.rstrip()` on a string. -/
def pyRstrip (s : String) : String :=
  String.mk (s.toList.reverse.dropWhile isPySpace).reverse

def digitVal (c : Char) : ℕ := c.toNat - 48

def digitsToNat (ds : List Char) : ℕ :=
  ds.foldl (fun n c => 10 * n + digitVal c) 0

/-- Numeric value of an optionally signed decimal with fraction digits
and decimal exponent: `sign * (int.frac) * 10^exp`. -/
def decimalToRat (sign : Bool) (intd fracd : List Char) (exp : ℤ) : ℚ :=
  let base : ℚ :=
    (digitsToNat intd : ℚ) + (digitsToNat fracd : ℚ) / (10 ^ fracd.length)
  let scaled : ℚ :=
    if 0 ≤ exp then base * 10 ^ exp.toNat else base / 10 ^ (-exp).toNat
  if sign then scaled else -scaled

/-- Grammar of Python `float(str)` after stripping: `[+-]` then digits
with optional fraction (at least one digit overall), then optional
`e`/`E` exponent.  `inf`/`nan`/digit underscores are not modelled (they
never occur in this development); on any other mismatch Python raises
`ValueError`, modelled as `none`. -/
def parseFloatCore (cs : List Char) : Option ℚ :=
  let (sign, cs₁) :=
    match cs with
    | '+' :: r => (true, r)
    | '-' :: r => (false, r)
    | r => (true, r)
  let intd := cs₁.takeWhile Char.isDigit
  let cs₂ := cs₁.drop intd.length
  let (fracd, cs₃) :=
    match cs₂ with
    | '.' :: r => (r.takeWhile Char.isDigit, r.drop (r.takeWhile Char.isDigit).length)
    | r => ([], r)
  if intd = [] ∧ fracd = [] then none
  else
    match cs₃ with
    | [] => some (decimalToRat sign intd fracd 0)
    | e :: r =>
      if e = 'e' ∨ e = 'E' then
        let (esign, r₁) :=
          match r with
          | '+' :: r₂ => (true, r₂)
          | '-' :: r₂ => (false, r₂)
          | r₂ => (true, r₂)
        let expd := r₁.takeWhile Char.isDigit
        if expd = [] ∨ r₁.drop expd.length ≠ [] then none
        else
          let ev : ℤ := if esign then (digitsToNat expd : ℤ) else -(digitsToNat expd : ℤ)
          some (decimalToRat sign intd fracd ev)
      else none

/-- Python `float(s)` for a string argument. -/
def strToRat? (s : String) : Option ℚ :=
  parseFloatCore (pyStripList s.toList)

/-- Python `float(x)`: numbers and bools coerce, strings are parsed,
everything else raises `TypeError` (`none`). -/
def pyFloat? : JVal → Option ℚ
  | .jnum q => some q
  | .jnumstr q => some q
  | .jbool b => some (if b then 1 else 0)
  | .jstr s => strToRat? s
  | _ => none

/-- `isinstance(x, (str, int, float))` — note Python `bool` is a
subclass of `int`. -/
def isStrIntFloat : JVal → Bool
  | .jnum _ => true
  | .jnumstr _ => true
  | .jbool _ => true
  | .jstr _ => true
  | _ => false

/-! ## `json.loads`

A strict JSON reader mirroring Python's `json` module (default,
`strict=True`): whitespace is space/tab/newline/return; strings reject
raw control characters and accept the standard escapes; numbers follow
the JSON grammar (`0` cannot be followed by more integer digits).
`NaN`/`Infinity` extensions and surrogate-pair combining of `\uXXXX`
escapes are not modelled (they occur in no input of this development).
Recursion is bounded by explicit fuel; callers supply fuel larger than
the input length, which always suffices. -/

/-- JSON whitespace accepted between tokens by `json.loads`. -/
def isJsonWs (c : Char) : Bool :=
  c = ' ' || c = '\t' || c = '\n' || c = '\r'

def skipJsonWs (cs : List Char) : List Char :=
  cs.dropWhile isJsonWs

def hexVal? (c : Char) : Option ℕ :=
  if c.isDigit then some (c.toNat - 48)
  else if 'a' ≤ c ∧ c ≤ 'f' then some (c.toNat - 87)
  else if 'A' ≤ c ∧ c ≤ 'F' then some (c.toNat - 55)
  else none

/-- Read the body of a JSON string after the opening quote. -/
def parseJsonString : List Char → Option (String × List Char)
  | [] => none
  | '"' :: rest => some ("", rest)
  | '\\' :: esc =>
    match esc with
    | [] => none
    | e :: rest =>
      let simpleChar : Option Char :=
        if e = '"' then some '"'
        else if e = '\\' then some '\\'
        else if e = '/' then some '/'
        else if e = 'b' then some '\x08'
        else if e = 'f' then some '\x0c'
        else if e = 'n' then some '\n'
        else if e = 'r' then some '\r'
        else if e = 't' then some '\t'
        else none
      match simpleChar with
      | some c =>
        match parseJsonString rest with
        | some (s, r) => some (⟨c :: s.toList⟩, r)
        | none => none
      | none =>
        if e = 'u' then
          match rest with
          | h₁ :: h₂ :: h₃ :: h₄ :: r₁ =>
            match hexVal? h₁, hexVal? h₂, hexVal? h₃, hexVal? h₄ with
            | some a, some b, some c, some d =>
              let code := ((a * 16 + b) * 16 + c) * 16 + d
              match parseJsonString r₁ with
              | some (s, r) => some (⟨Char.ofNat code :: s.toList⟩, r)
              | none => none
            | _, _, _, _ => none
          | _ => none
        else none
  | c :: rest =>
    if c.toNat < 32 then none
    else
      match parseJsonString rest with
      | some (s, r) => some (⟨c :: s.toList⟩, r)
      | none => none

/-- Read a JSON number (already known to start with `-` or a digit). -/
def parseJsonNumber (cs : List Char) : Option (ℚ × List Char) :=
  let (sign, cs₁) :=
    match cs with
    | '-' :: r => (false, r)
    | r => (true, r)
  match cs₁ with
  | [] => none
  | d :: rest =>
    if ¬ d.isDigit then none
    else
      -- JSON ints are `0` or a nonzero digit followed by digits
      let (intd, cs₂) :=
        if d = '0' then ([d], rest)
        else (d :: rest.takeWhile Char.isDigit, rest.drop (rest.takeWhile Char.isDigit).length)
      let (fracd, cs₃) :=
        match cs₂ with
        | '.' :: r =>
          let ds := r.takeWhile Char.isDigit
          (ds, r.drop ds.length)
        | r => ([], r)
      let fracOk : Bool := match cs₂ with | '.' :: _ => !fracd.isEmpty | _ => true
      if ¬ fracOk then none
      else
        match cs₃ with
        | e :: r =>
          if e = 'e' ∨ e = 'E' then
            let (esign, r₁) :=
              match r with
              | '+' :: r₂ => (true, r₂)
              | '-' :: r₂ => (false, r₂)
              | r₂ => (true, r₂)
            let expd := r₁.takeWhile Char.isDigit
            if expd = [] then none
            else
              let ev : ℤ :=
                if esign then (digitsToNat expd : ℤ) else -(digitsToNat expd : ℤ)
              some (decimalToRat sign intd fracd ev, r₁.drop expd.length)
          else some (decimalToRat sign intd fracd 0, cs₃)
        | [] => some (decimalToRat sign intd fracd 0, [])

mutual

/-- Read one JSON value (fuel-bounded recursive descent). -/
def parseJsonValue : ℕ → List Char → Option (JVal × List Char)
  | 0, _ => none
  | fuel + 1, cs =>
    match skipJsonWs cs with
    | [] => none
    | '{' :: rest => parseJsonObjItems fuel rest []
    | '[' :: rest => parseJsonArrItems fuel rest []
    | '"' :: rest =>
      match parseJsonString rest with
      | some (s, r) => some (.jstr s, r)
      | none => none
    | 't' :: 'r' :: 'u' :: 'e' :: rest => some (.jbool true, rest)
    | 'f' :: 'a' :: 'l' :: 's' :: 'e' :: rest => some (.jbool false, rest)
    | 'n' :: 'u' :: 'l' :: 'l' :: rest => some (.jnull, rest)
    | c :: rest =>
      if c = '-' ∨ c.isDigit then
        match parseJsonNumber (c :: rest) with
        | some (q, r) => some (.jnum q, r)
        | none => none
      else none

/-- Read the members of a JSON object after `{` (or after a `,`). -/
def parseJsonObjItems :
    ℕ → List Char → List (String × JVal) → Option (JVal × List Char)
  | 0, _, _ => none
  | fuel + 1, cs, acc =>
    match skipJsonWs cs with
    | '}' :: rest =>
      if acc.isEmpty then some (.jobj [], rest) else none
    | '"' :: rest =>
      match parseJsonString rest with
      | some (key, r₁) =>
        match skipJsonWs r₁ with
        | ':' :: r₂ =>
          match parseJsonValue fuel r₂ with
          | some (v, r₃) =>
            match skipJsonWs r₃ with
            | ',' :: r₄ => parseJsonObjItems fuel r₄ (acc ++ [(key, v)])
            | '}' :: r₄ => some (.jobj (acc ++ [(key, v)]), r₄)
            | _ => none
          | none => none
        | _ => none
      | none => none
    | _ => none

/-- Read the elements of a JSON array after `[` (or after a `,`). -/
def parseJsonArrItems :
    ℕ → List Char → List JVal → Option (JVal × List Char)
  | 0, _, _ => none
  | fuel + 1, cs, acc =>
    match skipJsonWs cs with
    | ']' :: rest =>
      if acc.isEmpty then some (.jarr [], rest) else none
    | cs₁ =>
      match parseJsonValue fuel cs₁ with
      | some (v, r₁) =>
        match skipJsonWs r₁ with
        | ',' :: r₂ => parseJsonArrItems fuel r₂ (acc ++ [v])
        | ']' :: r₂ => some (.jarr (acc ++ [v]), r₂)
        | _ => none
      | none => none

end

/-- Python `json.loads(s)`: parse one value, then require only
whitespace to the end of input. -/
def jsonLoads (s : String) : Option JVal :=
  match parseJsonValue (s.length + 1) s.toList with
  | some (v, rest) => if skipJsonWs rest = [] then some v else none
  | none => none

/-! ## `parse_json_response` and `_clean_and_fix_json`

String-level embedding of the parser/repair module
(`langgraph_agents_with_reflection.py`, lines 343-426).  Each regex of
the source is implemented as a character-list scanner with the same
left-to-right, non-overlapping replacement semantics as `re.sub`. -/

/-- One `re.sub(pat + r'\s*', '', s)` pass: every occurrence of the
literal `pat` and the whitespace following it is removed; scanning
resumes after the match (fuel-bounded; fuel larger than the input length
always suffices). -/
def removeLitWs (pat : List Char) : Nat -> List Char -> List Char
  | 0, cs => cs
  | _ + 1, [] => []
  | fuel + 1, c :: rest =>
    if pat.isPrefixOf (c :: rest) then
      removeLitWs pat fuel (((c :: rest).drop pat.length).dropWhile isPySpace)
    else
      c :: removeLitWs pat fuel rest

/-- Lines 347-348: strip markdown fences, first every "```json" with
trailing whitespace, then every remaining "```" with trailing
whitespace. -/
def stripFences (s : String) : String :=
  let cs := s.toList
  let fenceJson := '`' :: '`' :: '`' :: 'j' :: 's' :: 'o' :: 'n' :: []
  let fence := '`' :: '`' :: '`' :: []
  let cs := removeLitWs fenceJson (cs.length + 1) cs
  let cs := removeLitWs fence (cs.length + 1) cs
  String.mk cs

/-- Try to read `\s*` then `\d+(\.\d+)?%` at the head; on success
return the matched group-1 token (digits with optional fraction and the
percent sign) and the remaining input. -/
def percentTokenAt (cs : List Char) : Option (List Char × List Char) :=
  let r := cs.dropWhile isPySpace
  let intd := r.takeWhile Char.isDigit
  if intd.isEmpty then none
  else
    let r1 := r.drop intd.length
    match r1 with
    | '.' :: r2 =>
      let fracd := r2.takeWhile Char.isDigit
      if fracd.isEmpty then
        -- `(?:\.\d+)?` fails, fall back to matching without the fraction
        match r1 with
        | '%' :: r3 => some (intd ++ ['%'], r3)
        | _ => none
      else
        match r2.drop fracd.length with
        | '%' :: r3 => some (intd ++ '.' :: fracd ++ ['%'], r3)
        | _ => none
    | '%' :: r3 => some (intd ++ ['%'], r3)
    | _ => none

/-- Line 376: `re.sub(r':\s*(\d+(?:\.\d+)?%)', r': "\1"', s)` — wrap
bare numeric-percent tokens after a colon in quotes (the matched
whitespace collapses to the single space of the replacement). -/
def percentFix : Nat -> List Char -> List Char
  | 0, cs => cs
  | _ + 1, [] => []
  | fuel + 1, c :: rest =>
    if c = ':' then
      match percentTokenAt rest with
      | some (tok, rest1) =>
        ':' :: ' ' :: '"' :: (tok ++ '"' :: percentFix fuel rest1)
      | none => ':' :: percentFix fuel rest
    else c :: percentFix fuel rest

/-- Characters of the regex class `[\s,\]:}]` used by the
unescaped-quote repair's negative lookahead. -/
def isQuoteLookaheadChar (c : Char) : Bool :=
  isPySpace c || c = ',' || c = ']' || c = ':' || c = '}'

/-- Line 399: `re.sub(r'(?<!\\)"(?![\s,\]:}])', '\\"', json_str)` —
every quote not preceded by a backslash and not followed by one of
`[\s,\]:}]` (or at end of input) gains a backslash.  Lookbehind and
lookahead inspect the original text. -/
def quoteEscapeGo (prev : Option Char) : List Char -> List Char
  | [] => []
  | c :: rest =>
    if c = '"' && prev ≠ some '\\' &&
        (match rest with
         | [] => true
         | n :: _ => !isQuoteLookaheadChar n) then
      '\\' :: '"' :: quoteEscapeGo (some c) rest
    else
      c :: quoteEscapeGo (some c) rest

def quoteEscape (cs : List Char) : List Char :=
  quoteEscapeGo none cs

/-- Non-overlapping count of the two-character sequence `\"` in a line
(Python `line.count('\\"')`). -/
def countEscQuote : List Char -> Nat
  | '\\' :: '"' :: rest => countEscQuote rest + 1
  | _ :: rest => countEscQuote rest
  | [] => 0

/-- Lines 402-411: per-line truncated-string repair — a line whose
unescaped-quote count is odd and that does not already end (stripped)
with a quote gets `rstrip()` applied and a closing quote appended. -/
def fixLine (line : String) : String :=
  let quoteCount := line.toList.count '"' - countEscQuote line.toList
  if quoteCount % 2 = 1 && !(pyStrip line).endsWith "\"" then
    pyRstrip line ++ "\""
  else line

/-- Lines 379-392: walk from the first `{`, counting braces naively
(string contents included), and return the span up to the brace that
returns the count to zero; `none` when the count never returns to
zero. -/
def braceSpanGo : List Char -> Nat -> List Char -> Option (List Char)
  | [], _, _ => none
  | c :: rest, depth, acc =>
    if c = '{' then braceSpanGo rest (depth + 1) (acc ++ [c])
    else if c = '}' then
      if depth = 1 then some (acc ++ [c])
      else braceSpanGo rest (depth - 1) (acc ++ [c])
    else braceSpanGo rest depth (acc ++ [c])

/-- `_clean_and_fix_json` (lines 366-426): printable filter, control
character escaping, percent-token quoting, outermost-brace extraction,
unescaped-quote repair, per-line quote repair, and closing-brace
completion.  `none` models the `return None` paths. -/
def clean_and_fix_json (s : String) : Option String :=
  let cs := s.toList.filter (fun c => 32 ≤ c.toNat || c = '\n' || c = '\r' || c = '\t')
  let cs := cs.flatMap (fun c =>
    if c = '\n' then ['\\', 'n']
    else if c = '\r' then ['\\', 'r']
    else if c = '\t' then ['\\', 't']
    else [c])
  let cs := percentFix (cs.length + 1) cs
  match cs.findIdx? (fun c => c = '{') with
  | none => none
  | some i =>
    match braceSpanGo (cs.drop i) 0 [] with
    | none => none
    | some span =>
      let jsonStr := quoteEscape span
      let jsonStr :=
        String.intercalate "\n" (((String.mk jsonStr).splitOn "\n").map fixLine)
      let jsonStr :=
        if !(pyRstrip jsonStr).endsWith "\x7d" then
          jsonStr ++ String.mk (List.replicate
            (jsonStr.toList.count '{' - jsonStr.toList.count '}') '}')
        else jsonStr
      some jsonStr

/-- The error record returned when parsing and repair both fail
(line 364); `resp` is the fence-stripped, whitespace-stripped text the
source has reassigned to `response` by then. -/
def parseErrorRecord (resp : String) : JVal :=
  .jobj [("error", .jstr "Failed to parse JSON"),
         ("raw_response", .jstr (String.mk (resp.toList.take 500))),
         ("parsing_failed", .jbool true)]

/-- `parse_json_response` (lines 343-364): strip fences, try a direct
`json.loads`, then retry on the repaired text, and fall back to the
error record. -/
def parse_json_response (s : String) : JVal :=
  match jsonLoads (pyStrip (stripFences s)) with
  | some v => v
  | none =>
    match clean_and_fix_json (pyStrip (stripFences s)) with
    | some cleaned =>
      match jsonLoads cleaned with
      | some v => v
      | none => parseErrorRecord (pyStrip (stripFences s))
    | none => parseErrorRecord (pyStrip (stripFences s))

/-- `_is_valid_parsed_response` (lines 428-430). -/
def is_valid_parsed_response (l : List (String × JVal)) : Bool :=
  !(pyTruthy (dGetD l "error" .jnull) || pyTruthy (dGetD l "parsing_failed" .jnull))

/-! ## Pipeline state

`MessagingState` (lines 25-49) as a typed record.  `Option` fields model
keys whose value may be Python `None` (or, for `reflection_context` /
`meta_review`, keys absent from the initial state).  `messages` keeps
only the length of the message log (its contents feed no business
logic). -/

structure PState where
  messages : ℕ
  business_input : String
  company_name : String
  industry : String
  questionnaire_data : Option JVal
  business_profile : Option JVal
  competitor_analysis : Option JVal
  positioning_strategy : Option JVal
  messaging_framework : Option JVal
  content_assets : Option JVal
  quality_review : Option JVal
  current_step : String
  final_output : Option JVal
  reflection_cycle : ℕ
  max_reflection_cycles : ℕ
  reflection_feedback : JVal
  critique_points : List JVal
  improvement_suggestions : JVal
  needs_refinement : Bool
  refinement_areas : JVal
  quality_threshold : ℚ
  reflection_history : List JVal
  reflection_context : Option JVal
  meta_review : Option JVal

/-- The `initial_state` dict of `generate_messaging_playbook`
(lines 2951-2976); `selfTh`/`selfMax` are the constructor arguments
`quality_threshold` (default 8.0) and `max_reflection_cycles`
(default 3). -/
def initialState (bi cn ind : String) (qd : Option JVal) (selfTh : ℚ)
    (selfMax : ℕ) : PState :=
  { messages := 0, business_input := bi, company_name := cn, industry := ind,
    questionnaire_data := qd, business_profile := none,
    competitor_analysis := none, positioning_strategy := none,
    messaging_framework := none, content_assets := none,
    quality_review := none, current_step := "starting", final_output := none,
    reflection_cycle := 0, max_reflection_cycles := selfMax,
    reflection_feedback := .jobj [], critique_points := [],
    improvement_suggestions := .jarr [], needs_refinement := false,
    refinement_areas := .jarr [], quality_threshold := selfTh,
    reflection_history := [], reflection_context := none, meta_review := none }

/-! ## Quality reviewer (lines 2357-2542) -/

/-- The fixed fallback quality review installed by the `except` branch
of `quality_reviewer_agent` (lines 2500-2539). -/
def fallbackPremiumScores : List (String × JVal) :=
  [("messaging_quality_score", .jstr "8.5"),
   ("differentiation_score", .jstr "8.0"),
   ("emotional_resonance_score", .jstr "8.5"),
   ("rational_strength_score", .jstr "9.0"),
   ("clarity_score", .jstr "9.0"),
   ("credibility_score", .jstr "8.5"),
   ("urgency_score", .jstr "8.0"),
   ("proof_score", .jstr "8.0"),
   ("relevance_score", .jstr "9.0"),
   ("conversion_score", .jstr "8.5")]

def fallbackQualityReview : List (String × JVal) :=
  [("premium_quality_scores", .jobj fallbackPremiumScores),
   ("overall_quality_score", .jstr "8.5"),
   ("quality_percentage", .jstr "85.0%"),
   ("framework_analysis", .jobj
     [("aida_effectiveness", .jstr "Good application of AIDA principles"),
      ("pas_effectiveness", .jstr "Solid PAS framework usage"),
      ("bab_effectiveness", .jstr "Effective BAB messaging structure"),
      ("emotional_rational_balance", .jstr "Well-balanced emotional and rational appeals")]),
   ("competitive_analysis", .jobj
     [("differentiation_strength", .jstr "Clear competitive differentiation"),
      ("market_positioning", .jstr "Strong market positioning"),
      ("competitive_advantages", .jstr "Well-articulated competitive advantages")]),
   ("industry_expertise_assessment", .jobj
     [("compliance_accuracy", .jstr "Appropriate industry compliance messaging"),
      ("metrics_relevance", .jstr "Relevant industry metrics incorporated"),
      ("trust_factors", .jstr "Effective industry trust factors"),
      ("buyer_psychology", .jstr "Good alignment with buyer psychology")]),
   ("premium_strengths", .jarr
     [.jstr "Strong messaging framework", .jstr "Clear differentiation",
      .jstr "Industry-appropriate content"]),
   ("improvement_opportunities", .jarr
     [.jstr "Enhance emotional triggers", .jstr "Add more specific proof points",
      .jstr "Strengthen urgency messaging"]),
   ("critical_gaps", .jarr
     [.jstr "More quantified benefits needed", .jstr "Stronger competitive positioning"]),
   ("enhancement_recommendations", .jarr
     [.jstr "Add customer success stories", .jstr "Include specific metrics",
      .jstr "Strengthen call-to-action"]),
   ("approval_status", .jstr "Approved with Enhancements"),
   ("next_steps", .jarr
     [.jstr "Implement enhancement recommendations",
      .jstr "Test messaging with target audience"]),
   ("quality_trajectory", .jstr "Positive trajectory toward premium quality")]

/-- The state updates of the quality reviewer's `except` branch
(lines 2499-2542). -/
def applyQrFallback (st : PState) : PState :=
  { st with quality_review := some (.jobj fallbackQualityReview),
            current_step := "quality_review_completed",
            needs_refinement := true }

/-- Apply `float()` to each value in order, aborting at the first
failure (the raise of a Python list comprehension). -/
def floatList? : List JVal → Option (List ℚ)
  | [] => some []
  | v :: rest =>
    match pyFloat? v with
    | none => none
    | some q =>
      match floatList? rest with
      | none => none
      | some qs => some (q :: qs)

/-- Line 2467 comprehension: coerce every `str`/`int`/`float` value of
`premium_quality_scores` with `float()`; `none` models the `ValueError`
raised at the first unparseable string. -/
def qrScores (vals : List JVal) : Option (List ℚ) :=
  floatList? (vals.filter isStrIntFloat)

/-- The aggregate recomputation of lines 2465-2471: when the premium
scores are truthy, coerce their values and overwrite the aggregate with
their mean (Python `str(mean)` is modelled as `.jnumstr mean`, and the
formatted percent string of line 2471 as `.jnumstr (mean * 10)` —
nonempty, never re-read numerically); `none` models a raise. -/
def qrRecompute (obj : List (String × JVal)) : Option (List (String × JVal)) :=
  let premium := dGetD obj "premium_quality_scores" (.jobj [])
  if pyTruthy premium then
    match asObj? premium with
    | none => none
    | some pv =>
      match qrScores (pv.map (fun p => p.2)) with
      | none => none
      | some scores =>
        if scores.isEmpty then some obj
        else
          some (dSet (dSet obj "overall_quality_score"
              (.jnumstr (scores.sum / scores.length)))
            "quality_percentage" (.jnumstr (scores.sum / scores.length * 10)))
  else some obj

/-- The `try` block of `quality_reviewer_agent` up to line 2476:
validity check, aggregate recomputation from the dimension scores, and
the missing-aggregate fallback.  `none` models a raise anywhere in this
region (before the state writes of lines 2478-2484). -/
def qrProcess (parsed : JVal) : Option (List (String × JVal)) :=
  match asObj? parsed with
  | none => none
  | some obj =>
    if pyTruthy (dGetD obj "error" .jnull) || pyTruthy (dGetD obj "parsing_failed" .jnull) then
      none
    else
      match qrRecompute obj with
      | none => none
      | some obj₁ =>
        if pyTruthy (dGetD obj₁ "overall_quality_score" .jnull) then some obj₁
        else
          some (dSet (dSet obj₁ "overall_quality_score" (.jstr "8.5"))
            "quality_percentage" (.jstr "85.0%"))

/-- `quality_reviewer_agent` after the model call (lines 2455-2542);
`parsed` is `parse_json_response(response.content)`.  The second match
models the `float()` of line 2487, which runs after the message append
of line 2484 and still falls into the `except` branch on failure. -/
def quality_reviewer_agent (parsed : JVal) (selfTh : ℚ) (st : PState) : PState :=
  match qrProcess parsed with
  | none => applyQrFallback st
  | some obj =>
    match pyFloat? (dGetD obj "overall_quality_score" (.jnum 0)) with
    | none => { applyQrFallback st with messages := st.messages + 1 }
    | some overall =>
      { st with quality_review := some (.jobj obj),
                current_step := "quality_review_completed",
                messages := st.messages + 1,
                needs_refinement := decide (overall < selfTh) }

/-! ## Reflection decision (lines 514-570) -/

/-- The ten dimension keys read by `should_continue_reflection`
(lines 527-538). -/
def premiumKeys : List String :=
  ["messaging_quality_score", "differentiation_score",
   "emotional_resonance_score", "rational_strength_score", "clarity_score",
   "credibility_score", "urgency_score", "proof_score", "relevance_score",
   "conversion_score"]

/-- Python `max(a, b)`: the second argument wins only when strictly
greater. -/
def pyMax (a b : ℚ) : ℚ := if a < b then b else a

/-- Lines 516-545: `current_quality = max(overall_quality_score,
average of the positive dimension scores)`; `none` models a raise
(`quality_review` is `None`/non-dict, or a `float()` failure). -/
def currentQuality? (st : PState) : Option ℚ :=
  match st.quality_review with
  | none => none
  | some qrv =>
    match asObj? qrv with
    | none => none
    | some qr =>
      match pyFloat? (dGetD qr "overall_quality_score" (.jnum 0)) with
      | none => none
      | some overall =>
        match asObj? (dGetD qr "premium_quality_scores" (.jobj [])) with
        | none => none
        | some pv =>
          match floatList? (premiumKeys.map (fun k => dGetD pv k (.jnum 0))) with
          | none => none
          | some dims =>
            let valid := dims.filter (fun q => 0 < q)
            let avg : ℚ := if valid.isEmpty then 0 else valid.sum / valid.length
            some (pyMax overall avg)

/-- `should_continue_reflection` (lines 514-570): the conditional-edge
decision.  `target_quality` is the hard-coded `9.5` of line 524;
`selfMax` is the instance attribute `self.max_reflection_cycles`. -/
def should_continue_reflection (selfMax : ℕ) (st : PState) : Option String :=
  match currentQuality? st with
  | none => none
  | some q =>
    if q < 19/2 ∧ st.reflection_cycle < selfMax ∧ st.needs_refinement = true then
      some "continue_reflection"
    else some "finalize"

/-! ## Reflection orchestrator (lines 2544-2624) -/

/-- `list.extend(x)` elements of a Python iterable; `none` models the
`TypeError` for non-iterables.  (`jnumstr` never occurs in the extended
fields: the JSON reader does not produce it.) -/
def pyIterElems? : JVal → Option (List JVal)
  | .jarr l => some l
  | .jstr s => some (s.toList.map (fun c => .jstr (String.mk [c])))
  | .jobj l => some (l.map (fun p => .jstr p.1))
  | _ => none

/-- The `try` block of `reflection_orchestrator_agent`
(lines 2551-2602); `none` models a raise (handled by the `except` of
lines 2604-2624). -/
def orchTry (selfTh : ℚ) (st : PState) : Option PState :=
  match st.quality_review with
  | none => none
  | some qrv =>
  match asObj? qrv with
  | none => none
  | some qr =>
  match pyFloat? (dGetD qr "overall_quality_score" (.jnum 0)) with
  | none => none
  | some overall =>
  if overall < selfTh ∧ st.reflection_cycle < st.max_reflection_cycles then
    match (if pyTruthy (dGetD qr "critical_issues" .jnull) then
            pyIterElems? (dGetD qr "critical_issues" .jnull) else some []),
          (if pyTruthy (dGetD qr "improvements" .jnull) then
            pyIterElems? (dGetD qr "improvements" .jnull) else some []) with
    | none, _ => none
    | _, none => none
    | some ra₁, some ra₂ =>
    some { st with
      reflection_cycle := st.reflection_cycle + 1,
      needs_refinement := true,
      reflection_context := some (.jobj
        [("cycle", .jnum (st.reflection_cycle + 1)),
         ("quality_score", .jnum overall),
         ("quality_threshold", .jnum selfTh),
         ("quality_review", .jobj qr),
         ("previous_feedback", st.reflection_feedback),
         ("refinement_areas", .jarr (ra₁ ++ ra₂))]),
      current_step := "reflection_cycle_" ++ toString (st.reflection_cycle + 1) }
  else
    some { st with needs_refinement := false,
                   current_step := "reflection_completed" }

/-- `reflection_orchestrator_agent` (lines 2544-2624).  The fallback
`fallback_reason` holds `str(e)`, abstracted as a fixed string (it is
never read downstream). -/
def reflection_orchestrator_agent (selfTh : ℚ) (st : PState) : PState :=
  match orchTry selfTh st with
  | some st₁ => st₁
  | none =>
    { st with needs_refinement := false,
              current_step := "reflection_completed",
              reflection_context := some (.jobj
                [("quality_score", .jnum 8),
                 ("quality_threshold", .jnum selfTh),
                 ("cycle_number", .jnum 0),
                 ("improvements_needed", .jbool false),
                 ("refinement_areas", .jarr []),
                 ("error", .jbool true),
                 ("fallback_reason", .jstr "exception")]) }

/-! ## Critique, refinement, meta review (lines 2626-2864) -/

/-- The fallback critique of lines 2705-2726. -/
def fallbackCritique : List (String × JVal) :=
  [("critical_analysis", .jobj
     [("messaging_weaknesses", .jarr [.jstr "Generic value proposition", .jstr "Unclear differentiators"]),
      ("content_gaps", .jarr [.jstr "Missing social proof", .jstr "No specific metrics"]),
      ("positioning_issues", .jarr [.jstr "Not differentiated enough"]),
      ("consistency_problems", .jarr [.jstr "Tone varies across content"])]),
   ("improvement_directives", .jobj
     [("messaging_refinements", .jarr [.jstr "Make value prop more specific", .jstr "Add measurable benefits"]),
      ("content_enhancements", .jarr [.jstr "Include specific examples", .jstr "Add proof points"]),
      ("positioning_adjustments", .jarr [.jstr "Find unique angle", .jstr "Be more specific"]),
      ("tone_corrections", .jarr [.jstr "Standardize voice across content"])]),
   ("strategic_recommendations", .jarr [.jstr "Focus on unique benefits", .jstr "Add credibility elements"]),
   ("priority_fixes", .jarr [.jstr "Strengthen value proposition", .jstr "Add specificity"]),
   ("success_metrics", .jarr [.jstr "Clarity score", .jstr "Uniqueness factor"]),
   ("specific_examples", .jobj
     [("better_value_prop", .jstr "We help X achieve Y in Z timeframe"),
      ("stronger_headline", .jstr "Specific benefit + specific outcome"),
      ("clearer_differentiator", .jstr "Unlike X, we provide Y")])]

/-- `critique_agent` (lines 2626-2728) after the model call.
`parsed? = none` models a raised model call, handled by the `except`
branch (which appends the fallback critique and leaves `current_step`
unchanged); otherwise the parse result is appended unconditionally. -/
def critique_agent (parsed? : Option JVal) (st : PState) : PState :=
  match parsed? with
  | some p =>
    { st with critique_points := st.critique_points ++ [p],
              current_step := "critique_completed_cycle_" ++ toString st.reflection_cycle }
  | none => { st with critique_points := st.critique_points ++ [.jobj fallbackCritique] }

/-- `refinement_agent` (lines 2730-2767).  It has no `try`/`except`: an
empty `critique_points` (`IndexError`) or a non-dict critique
(`AttributeError`) escapes to the workflow runner, modelled as
`Except.error`. -/
def refinement_agent (now : String) (st : PState) : Except String PState :=
  match st.critique_points.getLast? with
  | none => .error "IndexError"
  | some ca =>
    match asObj? ca with
    | none => .error "AttributeError"
    | some caObj =>
      match asObj? (dGetD caObj "improvement_directives" (.jobj [])) with
      | none => .error "AttributeError"
      | some dirs =>
        let priority := dGetD caObj "priority_fixes" (.jarr [])
        let fb : JVal := .jobj
          [("cycle", .jnum st.reflection_cycle),
           ("messaging_refinements", dGetD dirs "messaging_refinements" (.jarr [])),
           ("content_enhancements", dGetD dirs "content_enhancements" (.jarr [])),
           ("positioning_adjustments", dGetD dirs "positioning_adjustments" (.jarr [])),
           ("tone_corrections", dGetD dirs "tone_corrections" (.jarr [])),
           ("priority_areas", priority),
           ("specific_examples", dGetD caObj "specific_examples" (.jobj []))]
        .ok { st with
          reflection_feedback := fb,
          refinement_areas := priority,
          improvement_suggestions := dGetD dirs "messaging_refinements" (.jarr []),
          reflection_history := st.reflection_history ++
            [.jobj [("cycle", .jnum st.reflection_cycle), ("critique", ca),
                    ("refinements", fb), ("timestamp", .jstr now)]],
          current_step := "refinement_prepared_cycle_" ++ toString st.reflection_cycle }

/-- The fallback meta review of lines 2845-2863. -/
def metaFallback : List (String × JVal) :=
  [("process_assessment", .jobj
     [("critique_quality", .jstr "Adequate"), ("refinement_clarity", .jstr "Clear"),
      ("progress_evaluation", .jstr "Positive"), ("cycle_effectiveness", .jstr "Effective")]),
   ("recommendations", .jobj
     [("continue_reflection", .jbool true),
      ("focus_areas", .jarr [.jstr "Specificity", .jstr "Differentiation"]),
      ("process_adjustments", .jarr [.jstr "None needed"]),
      ("quality_predictions", .jstr "Improvement expected")]),
   ("meta_feedback", .jobj
     [("strongest_improvements", .jarr [.jstr "Better critique"]),
      ("remaining_gaps", .jarr [.jstr "More specificity needed"]),
      ("process_insights", .jarr [.jstr "Process working well"])])]

/-- `meta_reviewer_agent` (lines 2769-2864) after the model call.
`parsed? = none` models a raised model call.  A non-dict parse result is
stored first (line 2830) and then overwritten by the fallback when
`.get` raises (line 2834); `needs_refinement` is cleared only when the
parsed recommendations carry a falsy `continue_reflection`
(default `True`). -/
def meta_reviewer_agent (parsed? : Option JVal) (st : PState) : PState :=
  match parsed? with
  | none => { st with meta_review := some (.jobj metaFallback) }
  | some parsed =>
    let st₁ := { st with
      meta_review := some parsed
      current_step := "meta_review_completed_cycle_" ++ toString st.reflection_cycle }
    match asObj? parsed with
    | none => { st₁ with meta_review := some (.jobj metaFallback) }
    | some mr =>
      match asObj? (dGetD mr "recommendations" (.jobj [])) with
      | none => { st₁ with meta_review := some (.jobj metaFallback) }
      | some recs =>
        if !(pyTruthy (dGetD recs "continue_reflection" (.jbool true))) then
          { st₁ with needs_refinement := false }
        else st₁

/-! ## Final assembly and top-level entry (lines 2866-2999) -/

/-- `float(state.get("quality_review", {}).get("overall_quality_score",
0))` as at lines 2876 and 2983; `none` models the raise. -/
def faQuality? (st : PState) : Option ℚ :=
  match st.quality_review with
  | none => none
  | some qrv =>
    match asObj? qrv with
    | none => none
    | some qr => pyFloat? (dGetD qr "overall_quality_score" (.jnum 0))

/-- `final_assembly_agent` (lines 2866-2940).  `exn` is an oracle for
any exception raised inside the `try` block beyond the modelled
`float()` failure; both take the `except` branch, which still installs
a (fallback) `final_output`. -/
def final_assembly_agent (now : String) (exn : Option String) (st : PState) : PState :=
  let fallback : String → PState := fun e =>
    { st with
      final_output := some (.jobj
        [("messaging_framework", st.messaging_framework.getD .jnull),
         ("content_assets", st.content_assets.getD .jnull),
         ("business_profile", st.business_profile.getD .jnull),
         ("quality_metrics", .jobj
           [("overall_quality_score", .jstr "8.0"),
            ("reflection_cycles", .jnum 0),
            ("quality_threshold_met", .jbool true)]),
         ("error", .jbool true),
         ("fallback_reason", .jstr e)])
      current_step := "completed"
      messages := st.messages + 1 }
  match exn with
  | some e => fallback e
  | none =>
    match faQuality? st with
    | none => fallback "ValueError"
    | some q =>
      { st with
        final_output := some (.jobj
          [("timestamp", .jstr now),
           ("business_input", .jstr st.business_input),
           ("business_profile", st.business_profile.getD .jnull),
           ("competitor_analysis", st.competitor_analysis.getD .jnull),
           ("positioning_strategy", st.positioning_strategy.getD .jnull),
           ("messaging_framework", st.messaging_framework.getD .jnull),
           ("content_assets", st.content_assets.getD .jnull),
           ("quality_review", st.quality_review.getD .jnull),
           ("status", .jstr "completed"),
           ("generated_by", .jstr "LangGraph MessageCraft Agents with Reflection"),
           ("reflection_metadata", .jobj
             [("total_reflection_cycles", .jnum st.reflection_cycle),
              ("final_quality_score", .jnum q),
              ("quality_threshold", .jnum st.quality_threshold),
              ("reflection_history", .jarr st.reflection_history),
              ("improvement_achieved", .jbool (decide (0 < st.reflection_cycle))),
              ("meta_review", st.meta_review.getD (.jobj [])),
              ("refinement_areas_addressed", st.refinement_areas),
              ("critique_points", .jarr st.critique_points)])]),
        current_step := "completed",
        messages := st.messages + 1 }

/-- The error record returned by the outer `except` of
`generate_messaging_playbook` (lines 2994-2999). -/
def errorResultRecord (e now : String) : JVal :=
  .jobj [("error", .jstr e), ("status", .jstr "failed"),
         ("timestamp", .jstr now),
         ("generated_by", .jstr "LangGraph MessageCraft Agents with Reflection")]

/-- `generate_messaging_playbook` (lines 2942-2999) after the workflow
run: `outcome` is the result of `self.app.ainvoke(initial_state)`, with
`Except.error` covering any exception the workflow raised.  The
`float()` of line 2983 runs inside the `try` and can itself divert to
the error record. -/
def generate_messaging_playbook (now : String)
    (outcome : Except String PState) : JVal :=
  match outcome with
  | .error e => errorResultRecord e now
  | .ok fs =>
    if pyTruthy (fs.final_output.getD .jnull) then
      match faQuality? fs with
      | none => errorResultRecord "ValueError" now
      | some _ => fs.final_output.getD .jnull
    else errorResultRecord "Workflow completed but no final output generated" now

/-! ## Stage graph (`setup_graph`, lines 458-512) -/

/-- The unconditional edges added in `setup_graph`; `"END"` stands for
the LangGraph `END` marker. -/
def graphEdges : List (String × String) :=
  [("business_discovery", "competitor_research"),
   ("competitor_research", "positioning_analysis"),
   ("positioning_analysis", "trust_building"),
   ("trust_building", "emotional_intelligence"),
   ("emotional_intelligence", "social_proof_generator"),
   ("social_proof_generator", "messaging_generator"),
   ("messaging_generator", "content_creator"),
   ("content_creator", "quality_reviewer"),
   ("quality_reviewer", "reflection_orchestrator"),
   ("critique_agent", "refinement_agent"),
   ("refinement_agent", "meta_reviewer"),
   ("meta_reviewer", "reflection_orchestrator"),
   ("final_assembly", "END")]

/-- The conditional edges from `reflection_orchestrator` (lines
497-504): decision string to target node. -/
def conditionalEdges : List (String × String) :=
  [("continue_reflection", "critique_agent"),
   ("finalize", "final_assembly")]

/-- Unique unconditional successor of a node, when one exists. -/
def nextNode (n : String) : Option String :=
  (graphEdges.find? (fun e => e.1 = n)).map (fun e => e.2)

/-- The node sequence obtained by following unconditional edges. -/
def pathFrom : ℕ → String → List String
  | 0, n => [n]
  | fuel + 1, n =>
    n :: (match nextNode n with
          | some m => pathFrom fuel m
          | none => [])

/-! ## Pipeline steps

One constructor per node of the reflection segment, plus one abstract
constructor covering the seven generation stages between discovery and
content creation (each of which writes only its own content field,
`current_step` and the message log — none touches the reflection
fields; `business_discovery` additionally re-initialises the reflection
state on its success path, lines 682-690). -/

/-- A write set for a generation stage: `some` fields are overwritten,
`none` fields are left alone. -/
structure ContentUpdate where
  company_name : Option String := none
  industry : Option String := none
  business_profile : Option JVal := none
  competitor_analysis : Option JVal := none
  positioning_strategy : Option JVal := none
  messaging_framework : Option JVal := none
  content_assets : Option JVal := none
  current_step : Option String := none
  messagesAdded : ℕ := 0

def applyContent (u : ContentUpdate) (st : PState) : PState :=
  { st with
    company_name := u.company_name.getD st.company_name
    industry := u.industry.getD st.industry
    business_profile := match u.business_profile with
      | some v => some v | none => st.business_profile
    competitor_analysis := match u.competitor_analysis with
      | some v => some v | none => st.competitor_analysis
    positioning_strategy := match u.positioning_strategy with
      | some v => some v | none => st.positioning_strategy
    messaging_framework := match u.messaging_framework with
      | some v => some v | none => st.messaging_framework
    content_assets := match u.content_assets with
      | some v => some v | none => st.content_assets
    current_step := u.current_step.getD st.current_step
    messages := st.messages + u.messagesAdded }

/-- One node execution of the workflow. -/
inductive AgentStep where
  | businessDiscovery (ok : Bool) (profile : JVal) (selfTh : ℚ) (selfMax : ℕ)
  | contentStage (u : ContentUpdate)
  | qualityReviewer (parsed : JVal) (selfTh : ℚ)
  | orchestrator (selfTh : ℚ)
  | critique (parsed? : Option JVal)
  | refinement (now : String)
  | metaReviewer (parsed? : Option JVal)
  | finalAssembly (now : String) (exn : Option String)

def AgentStep.isOrchestrator : AgentStep → Bool
  | .orchestrator _ => true
  | _ => false

def AgentStep.isDiscovery : AgentStep → Bool
  | .businessDiscovery _ _ _ _ => true
  | _ => false

/-- `business_discovery_agent` (lines 572-693): the success path stores
the parsed profile and re-initialises the reflection state
(lines 677-690); the adaptive-fallback path writes only the profile
(its reflection fields stay untouched). -/
def business_discovery_agent (ok : Bool) (profile : JVal) (selfTh : ℚ)
    (selfMax : ℕ) (st : PState) : PState :=
  if ok then
    { st with
      business_profile := some profile
      current_step := "business_discovery_completed"
      messages := st.messages + 1
      reflection_cycle := 0
      max_reflection_cycles := selfMax
      reflection_feedback := .jobj []
      critique_points := []
      improvement_suggestions := .jarr []
      needs_refinement := false
      refinement_areas := .jarr []
      quality_threshold := selfTh
      reflection_history := [] }
  else
    { st with business_profile := some profile }

def applyStep : AgentStep → PState → Except String PState
  | .businessDiscovery ok profile selfTh selfMax, st =>
    .ok (business_discovery_agent ok profile selfTh selfMax st)
  | .contentStage u, st => .ok (applyContent u st)
  | .qualityReviewer parsed selfTh, st => .ok (quality_reviewer_agent parsed selfTh st)
  | .orchestrator selfTh, st => .ok (reflection_orchestrator_agent selfTh st)
  | .critique parsed?, st => .ok (critique_agent parsed? st)
  | .refinement now, st => refinement_agent now st
  | .metaReviewer parsed?, st => .ok (meta_reviewer_agent parsed? st)
  | .finalAssembly now exn, st => .ok (final_assembly_agent now exn st)

def runSteps : List AgentStep → PState → Except String PState
  | [], st => .ok st
  | step :: rest, st =>
    match applyStep step st with
    | .ok st₁ => runSteps rest st₁
    | .error e => .error e

/-! ## The reflection loop

The workflow segment after the first quality review, following the
edges of `setup_graph`: `reflection_orchestrator`, then the conditional
`should_continue_reflection`, looping through `critique_agent`,
`refinement_agent` and `meta_reviewer` back into the orchestrator, and
finishing with `final_assembly`.  `critiqueOracle`/`metaOracle` supply
the parsed model responses per cycle; fuel above
`max_reflection_cycles` always suffices (a raise inside the conditional
or an exhausted fuel surfaces as `Except.error`, as an exception would
to `ainvoke`). -/
def reflectionLoop (selfTh : ℚ) (selfMax : ℕ) (now : String)
    (critiqueOracle : ℕ → Option JVal) (metaOracle : ℕ → Option JVal) :
    ℕ → PState → Except String PState
  | 0, _ => .error "GraphRecursionError"
  | fuel + 1, st =>
    let st₁ := reflection_orchestrator_agent selfTh st
    match should_continue_reflection selfMax st₁ with
    | none => .error "exception in should_continue_reflection"
    | some d =>
      if d = "continue_reflection" then
        let st₂ := critique_agent (critiqueOracle st₁.reflection_cycle) st₁
        match refinement_agent now st₂ with
        | .error e => .error e
        | .ok st₃ =>
          let st₄ := meta_reviewer_agent (metaOracle st₁.reflection_cycle) st₃
          reflectionLoop selfTh selfMax now critiqueOracle metaOracle fuel st₄
      else .ok (final_assembly_agent now none st₁)

/-! ## Concrete scenario states -/

/-- A pipeline state right after a quality review that reported `8.7`
overall and `8.7` on all ten dimensions, with refinement flagged, under
the constructor-default `quality_threshold = 8.0` and
`max_reflection_cycles = 3`. -/
def c1St : PState :=
  { initialState "bi" "Acme" "SaaS" none 8 3 with
    quality_review := some (.jobj
      [("overall_quality_score", .jnum (87/10)),
       ("premium_quality_scores", .jobj (premiumKeys.map (fun k => (k, .jnum (87/10)))))])
    needs_refinement := true }

/-- A valid parsed quality-review response whose ten dimension scores
are all `5` while the model also supplied an explicit aggregate of
`9.9`. -/
def c6Resp : List (String × JVal) :=
  [("overall_quality_score", .jnum (99/10)),
   ("premium_quality_scores", .jobj (premiumKeys.map (fun k => (k, .jnum 5))))]

/-- A valid parsed quality-review response with one dimension score
that is a string `float()` cannot parse. -/
def c10Resp : List (String × JVal) :=
  [("premium_quality_scores", .jobj
     (("messaging_quality_score", JVal.jstr "excellent") ::
       (premiumKeys.drop 1).map (fun k => (k, JVal.jnum 9))))]

/-- The quality-scorer response of the C5 scenario: all ten dimensions
equal to `1`. -/
def c5QResp : JVal :=
  .jobj [("premium_quality_scores", .jobj (premiumKeys.map (fun k => (k, .jnum 1))))]

/-- A state as left by the content stages (all content fields present)
with the constructor arguments `quality_threshold = 8.0`,
`max_reflection_cycles = 2` of the C5 scenario. -/
def c5PreState : PState := applyContent
  { business_profile := some (.jobj [("company_name", .jstr "Acme")]),
    messaging_framework := some (.jobj [("value_proposition", .jstr "vp")]),
    content_assets := some (.jobj [("headlines", .jarr [.jstr "h"])]),
    competitor_analysis := some (.jobj [("competitors", .jarr [])]),
    positioning_strategy := some (.jobj [("strategy", .jstr "s")]) }
  (initialState "bi" "Acme" "SaaS" none 8 2)

/-- The C5 scenario after the (single) quality-scorer invocation. -/
def c5AfterReview : PState := quality_reviewer_agent c5QResp 8 c5PreState

/-- The C5 scenario run to completion: the reflection loop with the
critique model answering (the fallback critique shape) and the meta
reviewer recommending to continue on every cycle. -/
def c5Run : Except String PState :=
  reflectionLoop 8 2 "t0" (fun _ => some (.jobj fallbackCritique))
    (fun _ => some (.jobj metaFallback)) 5 c5AfterReview

def c5Final : PState :=
  match c5Run with
  | .ok st => st
  | .error _ => initialState "" "" "" none 0 0

/-- `final_output.reflection_metadata.total_reflection_cycles` as a
number. -/
def totalCyclesOf? (st : PState) : Option ℚ :=
  match st.final_output with
  | some (.jobj l) =>
    match dictGet? l "reflection_metadata" with
    | some (.jobj m) => (dictGet? m "total_reflection_cycles").bind pyFloat?
    | _ => none
  | _ => none

/-- The percent-token input of the C7 scenario. -/
def c7Input : String := "\x7b\"score\": 93%\x7d"

/-- A fence-wrapped truncated input for the C8 scenario. -/
def c8Input : String := "```json\n\x7bbad"

/-- A state after one refinement pass (cycle 1 of 3, quality 5 of
threshold 8) on which the meta reviewer is about to run. -/
def c9PreSt : PState :=
  { initialState "bi" "Acme" "SaaS" none 8 3 with
    quality_review := some (.jobj [("overall_quality_score", .jnum 5)])
    reflection_cycle := 1
    needs_refinement := true
    critique_points := [.jobj fallbackCritique]
    reflection_history := [.jobj [("cycle", .jnum 1)]] }

/-- A meta-review response recommending to stop reflecting. -/
def c9MetaResp : JVal :=
  .jobj [("recommendations", .jobj [("continue_reflection", .jbool false)])]

/-- `needs_refinement` has been cleared by the meta reviewer. -/
def c9AfterMeta : PState := meta_reviewer_agent (some c9MetaResp) c9PreSt

/-- `True` when the result is an object carrying an `error` key. -/
def hasErrorKey : JVal → Bool
  | .jobj l => (dictGet? l "error").isSome
  | _ => false

/-! ## Claim theorems -/

/-- C1, counterexample: with the pipeline-start threshold `8.0`, a
quality of `8.7` (above threshold, refinement flagged, cycles left) is
decided `continue_reflection` by the code — the claimed rule
(`current_quality < quality_threshold` required for `continue`) says
`finalize` here, because the decision actually compares against the
hard-coded `9.5`, not the configured threshold. -/
theorem c1_threshold_counterexample :
    should_continue_reflection 3 c1St = some "continue_reflection" ∧
    currentQuality? c1St = some (87/10) ∧
    c1St.quality_threshold = 8 ∧ ¬ ((87:ℚ)/10 < 8) := by
  refine ⟨?_, ?_, ?_, ?_⟩
  · with_unfolding_all decide
  · with_unfolding_all decide
  · norm_num [c1St, initialState]
  · norm_num

/-- C1, amended: the Reflection Controller's conditional decides
`continue_reflection` iff `current_quality` (the maximum of the reported
aggregate and the mean of the positive dimension scores) is below the
hard-coded target `9.5` — not the configured `quality_threshold` — AND
`reflection_cycle < max_reflection_cycles` AND `needs_refinement`; in
every other case it decides `finalize`. -/
theorem c1_decision_rule_amended (selfMax : ℕ) (st : PState) (q : ℚ)
    (h : currentQuality? st = some q) :
    should_continue_reflection selfMax st = some "continue_reflection" ↔
      (q < 19/2 ∧ st.reflection_cycle < selfMax ∧ st.needs_refinement = true) := by
  unfold should_continue_reflection
  rw [h]
  by_cases hc : q < 19/2 ∧ st.reflection_cycle < selfMax ∧ st.needs_refinement = true
  · simp [hc]
  · simp [hc]

theorem c1_decision_rule_witness :
    currentQuality? c1St = some (87/10) ∧
    (should_continue_reflection 3 c1St = some "continue_reflection" ↔
      ((87:ℚ)/10 < 19/2 ∧ c1St.reflection_cycle < 3 ∧ c1St.needs_refinement = true)) :=
  ⟨by with_unfolding_all decide,
   c1_decision_rule_amended 3 c1St (87/10) (by with_unfolding_all decide)⟩

/-- C4, counterexample: following the unconditional edges from the
Critique stage, control reaches the Reflection Controller through
Refinement and the Meta-Reviewer without ever entering the Quality
Scorer — the graph has no re-scoring edge inside the loop. -/
theorem c4_no_rescoring_counterexample :
    pathFrom 3 "critique_agent" =
      ["critique_agent", "refinement_agent", "meta_reviewer",
       "reflection_orchestrator"] ∧
    "quality_reviewer" ∉ pathFrom 3 "critique_agent" := by decide

/-- C4, amended: on a `continue` decision control runs critique →
refinement → meta-review and then re-enters the Reflection Controller
directly; the only edge into the Quality Scorer is from the Content
stage, so `quality_review` is not refreshed inside the loop. -/
theorem c4_cycle_path_amended :
    (graphEdges.filter (fun e => e.2 = "quality_reviewer")).map (fun e => e.1) =
      ["content_creator"] ∧
    (conditionalEdges.find? (fun e => e.1 = "continue_reflection")).map (fun e => e.2) =
      some "critique_agent" ∧
    nextNode "critique_agent" = some "refinement_agent" ∧
    nextNode "refinement_agent" = some "meta_reviewer" ∧
    nextNode "meta_reviewer" = some "reflection_orchestrator" ∧
    nextNode "quality_reviewer" = some "reflection_orchestrator" := by decide

/-- C5, counterexample: in the all-ones scenario with
`max_reflection_cycles = 2` exactly one critique/refine cycle executes
(not two), even though the finished run reports
`total_reflection_cycles = 2`. -/
theorem c5_two_cycles_counterexample :
    c5Final.critique_points.length ≠ 2 ∧ totalCyclesOf? c5Final = some 2 :=
  ⟨by with_unfolding_all decide, by with_unfolding_all decide⟩

/-- C5, amended: with every quality score equal to 1 and
`max_reflection_cycles = 2`, the run completes with exactly one
critique/refine cycle executed, and finalizes with
`reflection_cycle = 2` and
`final_output.reflection_metadata.total_reflection_cycles = 2` — the
counter is incremented on the pass that decides `finalize`, so it
overcounts the executed cycles by one. -/
theorem c5_scenario_amended :
    (match c5Run with | .ok _ => true | .error _ => false) = true ∧
    c5Final.critique_points.length = 1 ∧
    c5Final.reflection_history.length = 1 ∧
    c5Final.reflection_cycle = 2 ∧
    totalCyclesOf? c5Final = some 2 := by
  refine ⟨?_, ?_, ?_, ?_, ?_⟩ <;> with_unfolding_all decide

/-- C7, evaluation at the failing input: the percent repair alone would
make `\x7b"score": 93%\x7d` parse to `score == "93%"`, but the full parser
returns the parsing-failure record, because the subsequent
unescaped-quote repair escapes the very quotes the percent repair
inserted. -/
theorem c7_percent_repair_evaluation :
    jsonLoads (String.mk (percentFix (c7Input.toList.length + 1) c7Input.toList)) =
      some (.jobj [("score", .jstr "93%")]) ∧
    parse_json_response c7Input = parseErrorRecord c7Input ∧
    (match parse_json_response c7Input with
     | .jobj l => pyTruthy (dGetD l "parsing_failed" .jnull)
     | _ => false) = true ∧
    (match parse_json_response c7Input with
     | .jobj l => dictGet? l "score"
     | _ => none) = none := by
  refine ⟨?_, ?_, ?_, ?_⟩ <;> with_unfolding_all rfl

/-- C8, counterexample: for a fence-wrapped failing input the error
record's `raw_response` holds the first 500 characters of the
fence-stripped text, not of the raw input. -/
theorem c8_raw_input_counterexample :
    (match parse_json_response c8Input with
     | .jobj l => dictGet? l "raw_response"
     | _ => none) = some (.jstr "\x7bbad") ∧
    String.mk (c8Input.toList.take 500) ≠ "\x7bbad" :=
  ⟨by with_unfolding_all rfl, by decide⟩

/-- C8, amended: for every input on which both the direct parse and the
parse of the repaired text fail, `parse_json_response` returns (never
raises) the error record marked `parsing_failed` that carries the first
500 characters of the fence-stripped, whitespace-stripped input — a
nonempty record, never an empty success. -/
theorem c8_parse_failure_amended (s : String)
    (h₁ : jsonLoads (pyStrip (stripFences s)) = none)
    (h₂ : ∀ c, clean_and_fix_json (pyStrip (stripFences s)) = some c →
      jsonLoads c = none) :
    parse_json_response s = parseErrorRecord (pyStrip (stripFences s)) ∧
    (match parseErrorRecord (pyStrip (stripFences s)) with
     | .jobj l => pyTruthy (dGetD l "parsing_failed" .jnull) = true ∧
         dictGet? l "raw_response" =
           some (.jstr (String.mk ((pyStrip (stripFences s)).toList.take 500))) ∧
         l ≠ []
     | _ => False) := by
  constructor
  · unfold parse_json_response
    rw [h₁]
    cases hc : clean_and_fix_json (pyStrip (stripFences s)) with
    | none => rfl
    | some c =>
      have hcn := h₂ c hc
      simp [hcn]
  · simp [parseErrorRecord, dictGet?, dGetD, pyTruthy]

theorem c8_parse_failure_witness :
    jsonLoads (pyStrip (stripFences "hello")) = none ∧
    parse_json_response "hello" = parseErrorRecord (pyStrip (stripFences "hello")) := by
  refine ⟨by with_unfolding_all rfl,
    (c8_parse_failure_amended "hello" (by with_unfolding_all rfl) ?_).1⟩
  intro c hc
  rw [show clean_and_fix_json (pyStrip (stripFences "hello")) = none from
    by with_unfolding_all rfl] at hc
  exact absurd hc (by simp)

/-- C9, counterexample: the Meta-Reviewer has just cleared
`needs_refinement` (quality 5, threshold 8, cycle 1 of 3), yet the
Reflection Controller's next decision is `continue_reflection`, because
the orchestrator recomputes `needs_refinement` from the score and
threshold, discarding the override. -/
theorem c9_override_counterexample :
    c9AfterMeta.needs_refinement = false ∧
    should_continue_reflection 3 (reflection_orchestrator_agent 8 c9AfterMeta) =
      some "continue_reflection" :=
  ⟨by with_unfolding_all decide, by with_unfolding_all decide⟩

/-- C9, amended: the Meta-Reviewer's override of `needs_refinement` has
no effect on the next decision — the Reflection Controller's output
state is identical whatever value `needs_refinement` carries on entry,
since it recomputes the flag from `overall_quality_score` and the
configured threshold. -/
theorem c9_override_ignored_amended (selfTh : ℚ) (st : PState) (b : Bool) :
    reflection_orchestrator_agent selfTh { st with needs_refinement := b } =
      reflection_orchestrator_agent selfTh st := rfl

/-! ## Quality-reviewer lemmas and claims C6, C10 -/

/-- A base pipeline state with the constructor defaults. -/
def cBaseSt : PState := initialState "bi" "Acme" "SaaS" none 8 3

def c6Result : PState := quality_reviewer_agent (.jobj c6Resp) 8 cBaseSt

theorem floatList?_eq_none (l : List JVal) (v : JVal) (hv : v ∈ l)
    (h : pyFloat? v = none) : floatList? l = none := by
  induction l with
  | nil => cases hv
  | cons hd tl ih =>
    cases hv with
    | head => simp [floatList?, h]
    | tail _ hm =>
      unfold floatList?
      cases hh : pyFloat? hd with
      | none => rfl
      | some q => rw [ih hm]

/-- C6, counterexample: the model supplies dimension scores all `5` and
an explicit aggregate `9.9`; the recorded aggregate is `5` (the mean of
the dimensions overwrites the model's aggregate) — not the higher of
the two, which would be `9.9`. -/
theorem c6_aggregate_counterexample :
    (match c6Result.quality_review with
     | some (.jobj l) => (dictGet? l "overall_quality_score").bind pyFloat?
     | _ => none) = some 5 ∧
    pyMax (99/10) (5:ℚ) ≠ 5 :=
  ⟨by with_unfolding_all decide, by with_unfolding_all decide⟩

/-- C6, amended: whenever the parsed review is valid and carries a
nonempty `premium_quality_scores` whose coercible values all parse, the
recorded aggregate equals the arithmetic mean of those values —
overwriting any model-supplied aggregate, which is retained only when
no dimension scores are available. -/
theorem c6_aggregate_mean_amended (obj pv : List (String × JVal))
    (scores : List ℚ) (th : ℚ) (st : PState)
    (herr : pyTruthy (dGetD obj "error" .jnull) = false)
    (hpf : pyTruthy (dGetD obj "parsing_failed" .jnull) = false)
    (hprem : dGetD obj "premium_quality_scores" (.jobj []) = .jobj pv)
    (hne : pv ≠ [])
    (hs : qrScores (pv.map (fun p => p.2)) = some scores)
    (hsne : scores ≠ []) :
    ∃ l, (quality_reviewer_agent (.jobj obj) th st).quality_review = some (.jobj l) ∧
      dictGet? l "overall_quality_score" =
        some (.jnumstr (scores.sum / scores.length)) ∧
      (quality_reviewer_agent (.jobj obj) th st).needs_refinement =
        decide (scores.sum / scores.length < th) := by
  have hget : ∀ (o : List (String × JVal)) (v w : JVal),
      dictGet? (dSet (dSet o "overall_quality_score" v) "quality_percentage" w)
        "overall_quality_score" = some v := by
    intro o v w
    rw [dictGet?_dSet_ne _ _ _ _ (by decide)]
    exact dictGet?_dSet_self _ _ _
  have hrec : qrRecompute obj = some (dSet (dSet obj "overall_quality_score"
      (.jnumstr (scores.sum / scores.length)))
      "quality_percentage" (.jnumstr (scores.sum / scores.length * 10))) := by
    unfold qrRecompute
    rw [hprem]
    have hpt : pyTruthy (JVal.jobj pv) = true := by
      simp [pyTruthy]
      intro hcc
      exact hne hcc
    have hie : scores.isEmpty = false := by
      cases scores with
      | nil => exact absurd rfl hsne
      | cons a tl => rfl
    simp only [hpt, if_true, asObj?, hs, hie, Bool.false_eq_true, if_false]
  have hproc : qrProcess (.jobj obj) = some (dSet (dSet obj "overall_quality_score"
      (.jnumstr (scores.sum / scores.length)))
      "quality_percentage" (.jnumstr (scores.sum / scores.length * 10))) := by
    unfold qrProcess
    simp only [asObj?]
    rw [herr, hpf]
    simp only [Bool.or_self, Bool.false_eq_true, if_false]
    rw [hrec]
    have hone : pyTruthy (dGetD (dSet (dSet obj "overall_quality_score"
        (JVal.jnumstr (scores.sum / scores.length)))
        "quality_percentage" (JVal.jnumstr (scores.sum / scores.length * 10)))
        "overall_quality_score" .jnull) = true := by
      unfold dGetD
      rw [hget]
      rfl
    simp only [hone, if_true]
  have hfl : pyFloat? (dGetD (dSet (dSet obj "overall_quality_score"
      (JVal.jnumstr (scores.sum / scores.length)))
      "quality_percentage" (JVal.jnumstr (scores.sum / scores.length * 10)))
      "overall_quality_score" (.jnum 0)) = some (scores.sum / scores.length) := by
    unfold dGetD
    rw [hget]
    rfl
  refine ⟨dSet (dSet obj "overall_quality_score"
      (.jnumstr (scores.sum / scores.length)))
      "quality_percentage" (.jnumstr (scores.sum / scores.length * 10)), ?_, ?_, ?_⟩
  · unfold quality_reviewer_agent
    simp only [hproc, hfl]
  · exact hget _ _ _
  · unfold quality_reviewer_agent
    simp only [hproc, hfl]

theorem c6_aggregate_mean_witness :
    qrScores ((premiumKeys.map (fun k => (k, JVal.jnum 5))).map (fun p => p.2)) =
      some (List.replicate 10 (5:ℚ)) ∧
    (∃ l, (quality_reviewer_agent (.jobj c6Resp) 8 cBaseSt).quality_review =
        some (.jobj l) ∧
      dictGet? l "overall_quality_score" =
        some (.jnumstr ((List.replicate 10 (5:ℚ)).sum /
          (List.replicate 10 (5:ℚ)).length)) ∧
      (quality_reviewer_agent (.jobj c6Resp) 8 cBaseSt).needs_refinement =
        decide ((List.replicate 10 (5:ℚ)).sum /
          (List.replicate 10 (5:ℚ)).length < 8)) :=
  ⟨by with_unfolding_all decide,
   c6_aggregate_mean_amended c6Resp (premiumKeys.map (fun k => (k, JVal.jnum 5)))
     (List.replicate 10 5) 8 cBaseSt
     (by with_unfolding_all decide) (by with_unfolding_all decide)
     (by with_unfolding_all rfl) (by simp [premiumKeys])
     (by with_unfolding_all decide) (by simp)⟩

/-- C10: a valid parsed review whose `premium_quality_scores` holds a
string `float()` cannot parse never raises out of the quality reviewer:
the whole model review is discarded, the fixed fallback review is
installed (all ten dimension scores between 8.0 and 9.0, overall
`"8.5"`), and `needs_refinement` is set. -/
theorem c10_fallback_on_unparseable (obj pv : List (String × JVal))
    (k s : String) (th : ℚ) (st : PState)
    (herr : pyTruthy (dGetD obj "error" .jnull) = false)
    (hpf : pyTruthy (dGetD obj "parsing_failed" .jnull) = false)
    (hprem : dGetD obj "premium_quality_scores" (.jobj []) = .jobj pv)
    (hmem : (k, JVal.jstr s) ∈ pv)
    (hbad : strToRat? s = none) :
    quality_reviewer_agent (.jobj obj) th st = applyQrFallback st ∧
    (quality_reviewer_agent (.jobj obj) th st).needs_refinement = true ∧
    (quality_reviewer_agent (.jobj obj) th st).quality_review =
      some (.jobj fallbackQualityReview) ∧
    dictGet? fallbackQualityReview "overall_quality_score" = some (.jstr "8.5") ∧
    (fallbackPremiumScores.all (fun p =>
      match p.2 with
      | .jstr t =>
        match strToRat? t with
        | some q => decide (8 ≤ q ∧ q ≤ 9)
        | none => false
      | _ => false)) = true := by
  have hscores : qrScores (pv.map (fun p => p.2)) = none := by
    unfold qrScores
    refine floatList?_eq_none _ (JVal.jstr s) ?_ hbad
    rw [List.mem_filter]
    exact ⟨List.mem_map_of_mem _ hmem, rfl⟩
  have hrec : qrRecompute obj = none := by
    unfold qrRecompute
    rw [hprem]
    have hpt : pyTruthy (JVal.jobj pv) = true := by
      simp [pyTruthy]
      intro hcc
      rw [hcc] at hmem
      cases hmem
    simp only [hpt, if_true, asObj?, hscores]
  have hproc : qrProcess (.jobj obj) = none := by
    unfold qrProcess
    simp only [asObj?]
    rw [herr, hpf]
    simp only [Bool.or_self, Bool.false_eq_true, if_false]
    rw [hrec]
  have hmain : quality_reviewer_agent (.jobj obj) th st = applyQrFallback st := by
    unfold quality_reviewer_agent
    rw [hproc]
  refine ⟨hmain, by rw [hmain]; rfl, by rw [hmain]; rfl,
    by with_unfolding_all rfl, ?_⟩
  with_unfolding_all decide

theorem c10_fallback_witness :
    strToRat? "excellent" = none ∧
    quality_reviewer_agent (.jobj c10Resp) 8 cBaseSt = applyQrFallback cBaseSt :=
  ⟨by with_unfolding_all decide,
   (c10_fallback_on_unparseable c10Resp
     (("messaging_quality_score", JVal.jstr "excellent") ::
       (premiumKeys.drop 1).map (fun k => (k, JVal.jnum 9)))
     "messaging_quality_score" "excellent" 8 cBaseSt
     (by with_unfolding_all decide) (by with_unfolding_all decide)
     (by with_unfolding_all rfl) (List.mem_cons_self _ _)
     (by with_unfolding_all decide)).1⟩

/-! ## Claim C2 -/

/-- C2: the pipeline's external contract is total.  Final Assembly
installs a nonempty `final_output` object on every path — including
when its own body raises (`exn`) — and `generate_messaging_playbook`
always returns a record: a raised workflow exception becomes a record
with an `error` field, and a completed workflow yields either the
state's `final_output` or such an error record, never an exception. -/
theorem c2_total_output :
    (∀ (now : String) (exn : Option String) (st : PState),
      ∃ l, (final_assembly_agent now exn st).final_output = some (.jobj l) ∧ l ≠ []) ∧
    (∀ (now e : String) (outcome : Except String PState), outcome = .error e →
      hasErrorKey (generate_messaging_playbook now outcome) = true) ∧
    (∀ (now : String) (outcome : Except String PState) (fs : PState),
      outcome = .ok fs →
      generate_messaging_playbook now outcome = fs.final_output.getD .jnull ∨
      hasErrorKey (generate_messaging_playbook now outcome) = true) := by
  refine ⟨?_, ?_, ?_⟩
  · intro now exn st
    cases exn with
    | some e => exact ⟨_, rfl, by simp⟩
    | none =>
      cases h : faQuality? st with
      | none =>
        exact ⟨_, by unfold final_assembly_agent; rw [h], by simp⟩
      | some q =>
        exact ⟨_, by unfold final_assembly_agent; rw [h], by simp⟩
  · intro now e outcome h
    subst h
    simp [generate_messaging_playbook, hasErrorKey, errorResultRecord, dictGet?]
  · intro now outcome fs h
    subst h
    unfold generate_messaging_playbook
    by_cases ht : pyTruthy (fs.final_output.getD .jnull) = true
    · simp only [ht, if_true]
      cases hq : faQuality? fs with
      | none =>
        right
        simp [hasErrorKey, errorResultRecord, dictGet?]
      | some q => exact Or.inl rfl
    · simp only [ht, if_false]
      right
      simp [hasErrorKey, errorResultRecord, dictGet?]

theorem c2_total_output_witness :
    (∃ l, (final_assembly_agent "t" none cBaseSt).final_output =
      some (.jobj l) ∧ l ≠ []) ∧
    hasErrorKey (generate_messaging_playbook "t" (.error "boom")) = true ∧
    (generate_messaging_playbook "t" (.ok cBaseSt) =
        cBaseSt.final_output.getD .jnull ∨
      hasErrorKey (generate_messaging_playbook "t" (.ok cBaseSt)) = true) :=
  ⟨c2_total_output.1 "t" none cBaseSt,
   c2_total_output.2.1 "t" "boom" (.error "boom") rfl,
   c2_total_output.2.2 "t" (.ok cBaseSt) cBaseSt rfl⟩

/-! ## Claim C3: cycle-counter facts per step -/

theorem qr_keeps_cycle (p : JVal) (th : ℚ) (st : PState) :
    (quality_reviewer_agent p th st).reflection_cycle = st.reflection_cycle ∧
    (quality_reviewer_agent p th st).max_reflection_cycles =
      st.max_reflection_cycles := by
  unfold quality_reviewer_agent applyQrFallback
  repeat' split
  all_goals exact ⟨rfl, rfl⟩

theorem orchTry_cycle_facts (th : ℚ) (st st₁ : PState)
    (h : orchTry th st = some st₁) :
    st₁.max_reflection_cycles = st.max_reflection_cycles ∧
    (st₁.reflection_cycle = st.reflection_cycle ∨
      (st₁.reflection_cycle = st.reflection_cycle + 1 ∧
       st.reflection_cycle < st.max_reflection_cycles)) := by
  unfold orchTry at h
  split at h
  · cases h
  · split at h
    · cases h
    · split at h
      · cases h
      · split at h
        · split at h
          · cases h
          · cases h
          · cases h
            refine ⟨rfl, Or.inr ⟨rfl, ?_⟩⟩
            exact ((by assumption :
              _ ∧ st.reflection_cycle < st.max_reflection_cycles)).2
        · cases h
          exact ⟨rfl, Or.inl rfl⟩

theorem orch_cycle_facts (th : ℚ) (st : PState) :
    (reflection_orchestrator_agent th st).max_reflection_cycles =
      st.max_reflection_cycles ∧
    ((reflection_orchestrator_agent th st).reflection_cycle = st.reflection_cycle ∨
      ((reflection_orchestrator_agent th st).reflection_cycle =
          st.reflection_cycle + 1 ∧
        st.reflection_cycle < st.max_reflection_cycles)) := by
  unfold reflection_orchestrator_agent
  cases ho : orchTry th st with
  | none => exact ⟨rfl, Or.inl rfl⟩
  | some st₁ => exact orchTry_cycle_facts th st st₁ ho

theorem refinement_ok_facts (now : String) (st st' : PState)
    (h : refinement_agent now st = .ok st') :
    st'.reflection_cycle = st.reflection_cycle ∧
    st'.max_reflection_cycles = st.max_reflection_cycles := by
  unfold refinement_agent at h
  split at h
  · cases h
  · split at h
    · cases h
    · split at h
      · cases h
      · cases h
        exact ⟨rfl, rfl⟩

theorem meta_keeps_cycle (p? : Option JVal) (st : PState) :
    (meta_reviewer_agent p? st).reflection_cycle = st.reflection_cycle ∧
    (meta_reviewer_agent p? st).max_reflection_cycles =
      st.max_reflection_cycles := by
  unfold meta_reviewer_agent
  repeat' split
  all_goals exact ⟨rfl, rfl⟩

theorem fa_keeps_cycle (now : String) (exn : Option String) (st : PState) :
    (final_assembly_agent now exn st).reflection_cycle = st.reflection_cycle ∧
    (final_assembly_agent now exn st).max_reflection_cycles =
      st.max_reflection_cycles := by
  unfold final_assembly_agent
  repeat' split
  all_goals exact ⟨rfl, rfl⟩

/-- Discovery runs only as the entry node, where the reflection state
still holds its initial values. -/
def stepAtEntry : AgentStep → PState → Prop
  | .businessDiscovery _ _ _ selfMax, st =>
    st.reflection_cycle = 0 ∧ st.max_reflection_cycles = selfMax
  | _, _ => True

theorem step_cycle_facts (step : AgentStep) (st st' : PState)
    (h : applyStep step st = .ok st') (hentry : stepAtEntry step st) :
    st'.max_reflection_cycles = st.max_reflection_cycles ∧
    (st'.reflection_cycle = st.reflection_cycle ∨
      (step.isOrchestrator = true ∧
       st'.reflection_cycle = st.reflection_cycle + 1 ∧
       st.reflection_cycle < st.max_reflection_cycles)) := by
  cases step with
  | businessDiscovery ok profile selfTh selfMax =>
    obtain ⟨h0, hmx⟩ := hentry
    cases h
    unfold business_discovery_agent
    cases ok with
    | true => exact ⟨hmx.symm, Or.inl h0.symm⟩
    | false => exact ⟨rfl, Or.inl rfl⟩
  | contentStage u =>
    cases h
    exact ⟨rfl, Or.inl rfl⟩
  | qualityReviewer p th =>
    cases h
    exact ⟨(qr_keeps_cycle p th st).2, Or.inl (qr_keeps_cycle p th st).1⟩
  | orchestrator th =>
    cases h
    rcases orch_cycle_facts th st with ⟨hm, hc⟩
    exact ⟨hm, hc.imp id (fun hp => ⟨rfl, hp.1, hp.2⟩)⟩
  | critique p? =>
    cases h
    cases p? with
    | some p => exact ⟨rfl, Or.inl rfl⟩
    | none => exact ⟨rfl, Or.inl rfl⟩
  | refinement now =>
    have hf := refinement_ok_facts now st st' h
    exact ⟨hf.2, Or.inl hf.1⟩
  | metaReviewer p? =>
    cases h
    exact ⟨(meta_keeps_cycle p? st).2, Or.inl (meta_keeps_cycle p? st).1⟩
  | finalAssembly now exn =>
    cases h
    exact ⟨(fa_keeps_cycle now exn st).2, Or.inl (fa_keeps_cycle now exn st).1⟩

theorem runSteps_cycle_facts (steps : List AgentStep) (st st' : PState)
    (hnd : ∀ s ∈ steps, s.isDiscovery = false)
    (h : runSteps steps st = .ok st')
    (hb : st.reflection_cycle ≤ st.max_reflection_cycles) :
    st.reflection_cycle ≤ st'.reflection_cycle ∧
    st'.reflection_cycle ≤ st'.max_reflection_cycles ∧
    st'.max_reflection_cycles = st.max_reflection_cycles := by
  induction steps generalizing st with
  | nil =>
    unfold runSteps at h
    cases h
    exact ⟨le_refl _, hb, rfl⟩
  | cons step rest ih =>
    unfold runSteps at h
    cases happ : applyStep step st with
    | error e => rw [happ] at h; cases h
    | ok st₁ =>
      rw [happ] at h
      have hentry : stepAtEntry step st := by
        cases step with
        | businessDiscovery ok profile selfTh selfMax =>
          exact absurd (hnd _ (List.mem_cons_self _ _)) (by simp [AgentStep.isDiscovery])
        | contentStage u => trivial
        | qualityReviewer p th => trivial
        | orchestrator th => trivial
        | critique p? => trivial
        | refinement now => trivial
        | metaReviewer p? => trivial
        | finalAssembly now exn => trivial
      rcases step_cycle_facts step st st₁ happ hentry with ⟨hm, hcyc⟩
      have hb₁ : st₁.reflection_cycle ≤ st₁.max_reflection_cycles := by
        rw [hm]
        rcases hcyc with hceq | ⟨_, hsucc, hlt⟩
        · rw [hceq]; exact hb
        · rw [hsucc]; exact hlt
      have hge : st.reflection_cycle ≤ st₁.reflection_cycle := by
        rcases hcyc with hceq | ⟨_, hsucc, _⟩
        · rw [hceq]
        · rw [hsucc]; exact Nat.le_succ _
      rcases ih st₁ (fun s hs => hnd s (List.mem_cons_of_mem _ hs)) h hb₁ with
        ⟨h₁, h₂, h₃⟩
      exact ⟨le_trans hge h₁, h₂, h₃.trans hm⟩

/-- C3: `reflection_cycle` starts at 0, never decreases, never exceeds
`max_reflection_cycles`, and is incremented — by exactly one, only by
the Reflection Controller, and only when below the cap — while
`max_reflection_cycles` never changes after pipeline start. -/
theorem c3_cycle_monotone_bounded :
    (∀ (bi cn ind : String) (qd : Option JVal) (th : ℚ) (mx : ℕ),
      (initialState bi cn ind qd th mx).reflection_cycle = 0 ∧
      (initialState bi cn ind qd th mx).max_reflection_cycles = mx) ∧
    (∀ (step : AgentStep) (st st' : PState), applyStep step st = .ok st' →
      stepAtEntry step st →
      st'.max_reflection_cycles = st.max_reflection_cycles ∧
      (st'.reflection_cycle = st.reflection_cycle ∨
        (step.isOrchestrator = true ∧
         st'.reflection_cycle = st.reflection_cycle + 1 ∧
         st.reflection_cycle < st.max_reflection_cycles))) ∧
    (∀ (steps : List AgentStep) (st st' : PState),
      (∀ s ∈ steps, s.isDiscovery = false) →
      runSteps steps st = .ok st' →
      st.reflection_cycle ≤ st.max_reflection_cycles →
      st.reflection_cycle ≤ st'.reflection_cycle ∧
      st'.reflection_cycle ≤ st'.max_reflection_cycles ∧
      st'.max_reflection_cycles = st.max_reflection_cycles) :=
  ⟨fun _ _ _ _ _ _ => ⟨rfl, rfl⟩, step_cycle_facts, runSteps_cycle_facts⟩

theorem c3_cycle_monotone_witness :
    (initialState "bi" "Acme" "SaaS" none 8 3).reflection_cycle = 0 ∧
    ((reflection_orchestrator_agent 8 c1St).max_reflection_cycles =
        c1St.max_reflection_cycles ∧
      ((reflection_orchestrator_agent 8 c1St).reflection_cycle =
          c1St.reflection_cycle ∨
        ((AgentStep.orchestrator 8).isOrchestrator = true ∧
         (reflection_orchestrator_agent 8 c1St).reflection_cycle =
           c1St.reflection_cycle + 1 ∧
         c1St.reflection_cycle < c1St.max_reflection_cycles))) ∧
    (c1St.reflection_cycle ≤
        (reflection_orchestrator_agent 8 c1St).reflection_cycle ∧
      (reflection_orchestrator_agent 8 c1St).reflection_cycle ≤
        (reflection_orchestrator_agent 8 c1St).max_reflection_cycles ∧
      (reflection_orchestrator_agent 8 c1St).max_reflection_cycles =
        c1St.max_reflection_cycles) :=
  ⟨(c3_cycle_monotone_bounded.1 "bi" "Acme" "SaaS" none 8 3).1,
   c3_cycle_monotone_bounded.2.1 (.orchestrator 8) c1St
     (reflection_orchestrator_agent 8 c1St) rfl trivial,
   by
    have hr := c3_cycle_monotone_bounded.2.2 [.orchestrator 8] c1St
      (reflection_orchestrator_agent 8 c1St)
      (by intro s hs; cases hs with
          | head => rfl
          | tail _ hm => cases hm)
      (by unfold runSteps applyStep runSteps; rfl)
      (by with_unfolding_all decide)
    exact hr⟩

end MessageCraft
